import Mathlib

/-!
Verification development for the DocuMind document-analysis application
(`src/app.py`).  The file shallowly embeds the core logic of the source:

* the pipeline orchestrator `process_document` (app.py lines 150-170),
  with the OCR engine, the tfidf vectorizer, the xgb classifier, the
  label decoder and the summarization model as abstract functions;
* the model-artifact loader `load_resources` (lines 136-147) and the
  guard in `main` (lines 243-248) that checks the loaded artifacts
  before running the pipeline;
* the user store `add_user` / `login_user` / `make_hashes` /
  `check_hashes` (lines 87-115) over an explicit list of credential
  rows, with the sqlite PRIMARY KEY uniqueness of `users.username`
  modelled as a key-existence check (a duplicate insert raises
  IntegrityError in the source, which `add_user` turns into `False`);
* the history store `save_history` / `get_user_history`
  (lines 117-130).  `save_history` uses a bound-parameter INSERT; the
  sqlite AUTOINCREMENT id is modelled as (max id) + 1, and the
  wall-clock timestamp is passed in explicitly.  `get_user_history`
  builds its query text by f-string interpolation of the username, so
  the embedding keeps the query text explicit: the query is the
  concatenation `history_query_head ++ username ++ history_query_tail`,
  and a small model of the sqlite engine accepts exactly the queries of
  that family whose interpolated literal contains no single-quote
  character, returning the filtered rows in id-descending order
  (rows are stored in insertion order with strictly increasing ids, so
  ORDER BY id DESC is the reverse of insertion order).  A query whose
  literal contains a quote is not a single well-formed statement of
  this family and is modelled as a database error (`none`); this is
  exact for usernames such as O Brien spelled with a quote, where
  sqlite reports a syntax error.
* the post-pipeline branch of `main` (lines 248-268) that decides,
  by Python truthiness of the returned category, whether a history
  record is saved (`handle_result`).

Python string primitives used by the source are modelled on the list of
characters of a Lean `String`: `str_take` is slicing `text[:3000]`
(first n code points), `py_strip` is `str.strip()` for the ASCII
whitespace characters, and `py_truthy` is the truthiness test `if x:`
applied to an optional string (None and the empty string are falsy).
The password hash `make_hashes` (sha256 hexdigest) is kept as an
abstract parameter `H : String → String`; every theorem about it holds
for an arbitrary such function, which is exactly the determinism the
source relies on.
-/

/-- Python `str.strip()` whitespace test, restricted to the ASCII
whitespace characters (space, tab, newline, carriage return, vertical
tab, form feed). -/
def py_isspace (c : Char) : Bool :=
  c == ' ' || c == '\t' || c == '\n' || c == '\r' || c == '\x0b' || c == '\x0c'

/-- Python `s.strip()`: remove leading and trailing whitespace. -/
def py_strip (s : String) : String :=
  ⟨((s.data.dropWhile py_isspace).reverse.dropWhile py_isspace).reverse⟩

/-- Python slicing `s[:n]`: the first `n` code points of `s`. -/
def str_take (s : String) (n : Nat) : String :=
  ⟨s.data.take n⟩

/-- Python truthiness of an optional string: `None` and `""` are falsy,
every other string is truthy.  This is the test `if category:` in
`main` (app.py line 250). -/
def py_truthy : Option String → Bool
  | none => false
  | some s => s != ""

/-- The loaded model artifacts, as abstract functions.  `transform`
is `tfidf_vectorizer.transform`, `predict` is `xgb_model.predict`
composed with taking the first entry, `inverse_transform` is
`label_encoder.inverse_transform` composed with taking the first
entry, and `summarizer` is the summarization pipeline applied as
`summarizer(input_text, max_length, min_length, do_sample)` followed by
extracting the single `summary_text` (app.py lines 157-168). -/
structure Models (Vec Pred : Type) where
  transform : String → Vec
  predict : Vec → Pred
  inverse_transform : Pred → String
  summarizer : String → Nat → Nat → Bool → String

/-- Instrumentation: which of the three downstream model stages were
invoked during one `process_document` run. -/
structure Calls where
  vectorizer : Bool
  classifier : Bool
  summarizer : Bool
  deriving Repr, DecidableEq

/-- Summarization step of `process_document` (app.py lines 161-168):
truncate the text to its first 3000 characters; if the truncated input
has fewer than 50 characters return the sentinel without calling the
model, otherwise call the model with max_length 130, min_length 30 and
do_sample False.  The boolean records whether the model was invoked. -/
def summarize (model : String → Nat → Nat → Bool → String) (text : String) : String × Bool :=
  if (str_take text 3000).length < 50 then
    ("Text too short to summarize.", false)
  else
    (model (str_take text 3000) 130 30 false, true)

/-- Core of `process_document` (app.py lines 150-170) after OCR: if the
stripped text is empty return `(None, None, "No text found")`; otherwise
vectorize, classify, decode the label, summarize, and return the triple
`(category, summary, text)`.  The `Calls` component is instrumentation
recording which stages ran on the taken path. -/
def process_document_text {Vec Pred : Type} (M : Models Vec Pred) (text : String) :
    (Option String × Option String × String) × Calls :=
  if py_strip text = "" then
    ((none, none, "No text found"), ⟨false, false, false⟩)
  else
    ((some (M.inverse_transform (M.predict (M.transform text))),
      some (summarize M.summarizer text).1,
      text),
     ⟨true, true, (summarize M.summarizer text).2⟩)

/-- `process_document(image)` with a total OCR engine
(`pytesseract.image_to_string`, app.py line 152). -/
def process_document {Img Vec Pred : Type} (ocr : Img → String) (M : Models Vec Pred)
    (image : Img) : (Option String × Option String × String) × Calls :=
  process_document_text M (ocr image)

/-- `process_document(image)` with a fallible OCR engine.  The source
wraps the `pytesseract.image_to_string` call in no try/except, so an
engine exception propagates out of `process_document` unchanged; that
uncaught propagation is the `Except.error` case here.  The in-band
result type of the function is only the triple: the source defines no typed
extraction-error result. -/
def process_document_exc {Img Vec Pred E : Type} (ocr : Img → Except E String)
    (M : Models Vec Pred) (image : Img) :
    Except E ((Option String × Option String × String) × Calls) :=
  match ocr image with
  | Except.error e => Except.error e
  | Except.ok text => Except.ok (process_document_text M text)

/-- Whether a loading step raised (the `except Exception` case of
`load_resources`, app.py line 144). -/
def except_failed {E α : Type} : Except E α → Bool
  | Except.error _ => true
  | Except.ok _ => false

/-- `load_resources` (app.py lines 136-145): load the classifier model,
the vectorizer, the label encoder and the summarizer in order inside
one try block; if any load raises, return `(None, None, None, None)`,
otherwise return the four loaded artifacts. -/
def load_resources {A B C D E : Type} (m : Except E A) (v : Except E B)
    (enc : Except E C) (sm : Except E D) :
    Option A × Option B × Option C × Option D :=
  match m, v, enc, sm with
  | Except.ok a, Except.ok b, Except.ok c, Except.ok d => (some a, some b, some c, some d)
  | _, _, _, _ => (none, none, none, none)

/-- Outcome of pressing the process button in `main`
(app.py lines 243-248). -/
inductive Click (R : Type) where
  | modelsUnavailable : Click R
  | ran : R → Click R
  | crash : Click R

/-- The guard in `main` (app.py lines 243-248): if `xgb_model is None`
show the models-failed error and do not run the pipeline; otherwise run
`process_document`, which uses all four artifacts.  `run` stands for
the whole pipeline invocation (OCR included), so it is applied only in
the `ran` case.  A state where the model is present but another
artifact is missing would make the Python code dereference `None`
(`crash`); `load_resources` never produces such a state. -/
def click_process {A B C D R : Type} (res : Option A × Option B × Option C × Option D)
    (run : A → B → C → D → R) : Click R :=
  match res.1 with
  | none => Click.modelsUnavailable
  | some m =>
    match res.2.1, res.2.2.1, res.2.2.2 with
    | some v, some enc, some sm => Click.ran (run m v enc sm)
    | _, _, _ => Click.crash

/-- The users table: one `(username, password hash)` row per entry
(schema at app.py lines 74-75, `username TEXT PRIMARY KEY`). -/
abbrev UsersDb := List (String × String)

/-- Whether a row with the given username exists; a duplicate INSERT
into `users` violates the PRIMARY KEY and raises IntegrityError. -/
def has_user (db : UsersDb) (u : String) : Bool :=
  db.any (fun r => r.1 == u)

/-- `check_hashes` (app.py lines 90-93), over an abstract hash `H`. -/
def check_hashes (H : String → String) (password hashed_text : String) : Bool :=
  H password == hashed_text

/-- `add_user` (app.py lines 95-106): INSERT the username with the
hashed password through bound parameters; on IntegrityError (duplicate
username) return `False` leaving the table unchanged, else `True`. -/
def add_user (H : String → String) (db : UsersDb) (username password : String) :
    Bool × UsersDb :=
  if has_user db username then
    (false, db)
  else
    (true, db ++ [(username, H password)])

/-- `login_user` (app.py lines 108-115): parameterized
`SELECT * FROM users WHERE username =? AND password = ?`, with the
supplied password hashed first; returns the matching rows
(`fetchall`).  The caller treats a nonempty result as authenticated. -/
def login_user (H : String → String) (db : UsersDb) (username password : String) : UsersDb :=
  db.filter (fun r => r.1 == username && r.2 == H password)

/-- One row of the history table (schema at app.py lines 77-83).  The
category and summary columns have no NOT NULL constraint, hence
`Option String`. -/
structure HistRow where
  id : Nat
  username : String
  timestamp : String
  filename : String
  category : Option String
  summary : Option String
  deriving Repr, DecidableEq

/-- The history table, in insertion order. -/
abbrev HistDb := List HistRow

/-- The next AUTOINCREMENT id: strictly above every existing id. -/
def next_id (db : HistDb) : Nat :=
  (db.map (fun r => r.id)).foldr max 0 + 1

/-- `save_history` (app.py lines 117-124): parameterized INSERT of one
history row; the timestamp is produced by the wall clock, passed in
here as `now`. -/
def save_history (db : HistDb) (now username filename : String)
    (category summary : Option String) : HistDb :=
  db ++ [⟨next_id db, username, now, filename, category, summary⟩]

/-- The single-quote character used by the f-string in
`get_user_history` to delimit the interpolated username. -/
def squot : Char := '\x27'

/-- Text of the query of `get_user_history` before the interpolated
username (app.py line 128). -/
def history_query_head : String :=
  "SELECT timestamp, filename, category, summary FROM history WHERE username = \x27"

/-- Text of the query of `get_user_history` after the interpolated
username (app.py line 128). -/
def history_query_tail : String :=
  "\x27 ORDER BY id DESC"

/-- The query text `get_user_history` submits: the f-string
interpolation of the username between the fixed head and tail
(app.py line 128). -/
def history_query (username : String) : String :=
  history_query_head ++ username ++ history_query_tail

/-- The span of a submitted query that sits between the fixed head and
tail, used by the query model below. -/
def history_query_mid (q : String) : List Char :=
  (q.data.drop history_query_head.data.length).take
    ((q.data.drop history_query_head.data.length).length - history_query_tail.data.length)

/-- Model of sqlite parsing a query of the history-query family: the
query must be exactly head, then one quoted literal containing no
single-quote character, then tail; the parsed literal is returned.
Any other query of this family is not one well-formed statement (the
quote inside the literal ends the sqlite string early) and fails. -/
def parse_history_query (q : String) : Option String :=
  if q.data = history_query_head.data ++ history_query_mid q ++ history_query_tail.data ∧
      ∀ c ∈ history_query_mid q, c ≠ squot then
    some ⟨history_query_mid q⟩
  else
    none

/-- The four selected columns of a history row, in the order of the
SELECT list of app.py line 128. -/
def hist_row_view (r : HistRow) : String × String × Option String × Option String :=
  (r.timestamp, r.filename, r.category, r.summary)

/-- Model of sqlite executing a submitted history query against the
table: parse the query, then return the rows whose username equals the
parsed literal, ordered by id descending (the reverse of insertion
order, since ids increase along the table); `none` is a database
error raised to the caller. -/
def run_history_query (db : HistDb) (q : String) :
    Option (List (String × String × Option String × Option String)) :=
  match parse_history_query q with
  | none => none
  | some u => some (((db.filter (fun r => r.username == u)).reverse).map hist_row_view)

/-- `get_user_history` (app.py lines 126-130): build the query by
interpolating the username and run it. -/
def get_user_history (db : HistDb) (username : String) :
    Option (List (String × String × Option String × Option String)) :=
  run_history_query db (history_query username)

/-- The branch of `main` after `process_document` returns
(app.py lines 248-268): if the returned category is truthy, save one
history record (passing the category and summary values through) and
report success; otherwise save nothing and report the error.  The
boolean records which branch ran. -/
def handle_result (db : HistDb) (now username filename : String)
    (r : Option String × Option String × String) : HistDb × Bool :=
  if py_truthy r.1 then
    (save_history db now username filename r.1 r.2.1, true)
  else
    (db, false)

/-- Query text submitted by `add_user` (app.py line 99); the user data
travels as bound parameters, so the text is input-independent. -/
def add_user_query (_username _password : String) : String :=
  "INSERT INTO users(username, password) VALUES (?,?)"

/-- Query text submitted by `login_user` (app.py line 111); the user
data travels as bound parameters, so the text is input-independent. -/
def login_user_query (_username _password : String) : String :=
  "SELECT * FROM users WHERE username =? AND password = ?"

/-- Query text submitted by `save_history` (app.py line 121); the user
data travels as bound parameters, so the text is input-independent. -/
def save_history_query (_username _filename : String)
    (_category _summary : Option String) : String :=
  "INSERT INTO history (username, timestamp, filename, category, summary) VALUES (?,?,?,?,?)"

/-- A concrete stand-in for the loaded model artifacts, used to
instantiate universally quantified theorems at a concrete input. -/
def M0 : Models Unit Unit :=
  ⟨fun _ => (), fun _ => (), fun _ => "", fun _ _ _ _ => "MODEL SUMMARY"⟩

/-- A concrete stand-in summarization model. -/
def model_stub : String → Nat → Nat → Bool → String :=
  fun _ _ _ _ => "MODEL SUMMARY"

/-- A concrete stand-in for the password hash, used only to instantiate
theorems that hold for an arbitrary hash function. -/
def hash_stub : String → String :=
  fun s => "#" ++ s

/-- An OCR engine that reads only whitespace from any image. -/
def ocr_blank : Unit → String :=
  fun _ => " \t\n "

/-- An OCR engine that always raises (an unsupported image format). -/
def ocr_raise : Unit → Except String String :=
  fun _ => Except.error "TesseractError: unsupported image format"

/-- A username containing a single-quote character. -/
def obrien : String := "O\x27Brien"

/-- A small history table built by two pipeline runs of two users. -/
def db0 : HistDb :=
  save_history
    (save_history [] "2026-10-11 09:00:00" "alice" "inv1.png" (some "invoice") (some "sum a"))
    "2026-10-11 10:00:00" "bob" "rcpt.png" (some "receipt") (some "sum b")

/-- Helper: a string all of whose characters are whitespace strips to
the empty string. -/
theorem py_strip_of_all_space (s : String) (h : ∀ c ∈ s.data, py_isspace c = true) :
    py_strip s = "" := by
  have h1 : s.data.dropWhile py_isspace = [] := List.dropWhile_eq_nil_iff.mpr h
  simp [py_strip, h1]

/-- C1: for every input image whose extracted OCR text consists only of
whitespace characters (the empty text included), `process_document`
returns the failure triple `(None, None, "No text found")` — the
`Failed("no text found")` state of the spec — without invoking the vectorizer, the
classifier or the summarizer, and the subsequent branch of `main` saves
no history record for the run. -/
theorem empty_ocr_fails_without_stage_calls {Img Vec Pred : Type}
    (ocr : Img → String) (M : Models Vec Pred) (image : Img)
    (db : HistDb) (now user file : String)
    (h : ∀ c ∈ (ocr image).data, py_isspace c = true) :
    process_document ocr M image = ((none, none, "No text found"), ⟨false, false, false⟩) ∧
    handle_result db now user file (process_document ocr M image).1 = (db, false) := by
  have hs : py_strip (ocr image) = "" := py_strip_of_all_space _ h
  constructor
  · simp [process_document, process_document_text, hs]
  · simp [process_document, process_document_text, hs, handle_result, py_truthy]

/-- Witness for C1 at a concrete whitespace-only OCR result. -/
theorem empty_ocr_fails_without_stage_calls_witness :
    process_document ocr_blank M0 () = ((none, none, "No text found"), ⟨false, false, false⟩) ∧
    handle_result [] "2026-10-12 00:00:00" "alice" "scan.png"
      (process_document ocr_blank M0 ()).1 = ([], false) :=
  empty_ocr_fails_without_stage_calls ocr_blank M0 () [] "2026-10-12 00:00:00" "alice"
    "scan.png" (by decide)

/-- C2 counterexample: the claim guards the sentinel on the trimmed
length of the truncated input, but the source (app.py line 164) checks
`len(input_text) < 50` without trimming.  For the 55-character text of
10 letters followed by 45 spaces, the trimmed length of the truncated
input is 10 < 50, yet the code invokes the summarization model and does
not return the sentinel. -/
theorem summarize_trimmed_guard_cex :
    (py_strip (str_take "aaaaaaaaaa                                             " 3000)).length < 50 ∧
    (summarize model_stub "aaaaaaaaaa                                             ").2 = true ∧
    (summarize model_stub "aaaaaaaaaa                                             ").1 ≠
      "Text too short to summarize." := by
  decide

/-- C2 as amended: the summarizer input is first truncated to its first
3000 characters; if the (untrimmed) length of that truncated input is
fewer than 50 characters, `summarize` returns exactly the sentinel
"Text too short to summarize." without invoking the model; otherwise
the model is invoked on the truncated input with maximum output length
130, minimum output length 30 and non-sampling decoding
(`do_sample=False`), and its output is returned. -/
theorem summarize_untrimmed_guard (model : String → Nat → Nat → Bool → String)
    (text : String) :
    ((str_take text 3000).length < 50 →
      summarize model text = ("Text too short to summarize.", false)) ∧
    (50 ≤ (str_take text 3000).length →
      summarize model text = (model (str_take text 3000) 130 30 false, true)) := by
  constructor
  · intro h
    simp [summarize, h]
  · intro h
    simp [summarize, Nat.not_lt.mpr h]

/-- Witness for C2 (amended), one instance per branch. -/
theorem summarize_untrimmed_guard_witness :
    ((str_take "short text" 3000).length < 50 ∧
      summarize model_stub "short text" = ("Text too short to summarize.", false)) ∧
    (50 ≤ (str_take "aaaaaaaaaaaaaaaaaaaaaaaaaaaaaaaaaaaaaaaaaaaaaaaaaaaaaaaaaaaa" 3000).length ∧
      summarize model_stub "aaaaaaaaaaaaaaaaaaaaaaaaaaaaaaaaaaaaaaaaaaaaaaaaaaaaaaaaaaaa" =
        (model_stub (str_take "aaaaaaaaaaaaaaaaaaaaaaaaaaaaaaaaaaaaaaaaaaaaaaaaaaaaaaaaaaaa" 3000)
          130 30 false, true)) :=
  ⟨⟨by decide, (summarize_untrimmed_guard model_stub "short text").1 (by decide)⟩,
   ⟨by decide, (summarize_untrimmed_guard model_stub
      "aaaaaaaaaaaaaaaaaaaaaaaaaaaaaaaaaaaaaaaaaaaaaaaaaaaaaaaaaaaa").2 (by decide)⟩⟩

/-- C3 counterexample: at a concrete image the OCR engine rejects, the
pipeline run evaluates to the propagated raw engine error — not to any
in-band typed failure result (the only in-band result type of the
orchestrator is the triple, and it defines no ExtractionError value), refuting
the claim that such errors are captured and returned as a typed
`ExtractionError` result. -/
theorem ocr_error_typed_result_cex :
    process_document_exc ocr_raise M0 () =
      Except.error "TesseractError: unsupported image format" := rfl

/-- C3 as amended: `process_document` wraps the OCR call in no handler,
so whenever the OCR engine raises, the raw engine exception propagates
out of the pipeline run unchanged; no typed `ExtractionError` result is
produced. -/
theorem ocr_error_propagates_raw {Img Vec Pred E : Type}
    (ocr : Img → Except E String) (M : Models Vec Pred) (image : Img) (e : E)
    (h : ocr image = Except.error e) :
    process_document_exc ocr M image = Except.error e := by
  simp [process_document_exc, h]

/-- Witness for C3 (amended) at a concrete failing OCR engine. -/
theorem ocr_error_propagates_raw_witness :
    process_document_exc (fun _ : Unit => (Except.error "cannot identify image file" :
      Except String String)) M0 () = Except.error "cannot identify image file" :=
  ocr_error_propagates_raw _ M0 () _ rfl

/-- C4: if loading any one of the four model artifacts fails,
`load_resources` yields the all-`None` tuple — the single
`ModelsUnavailable` condition — and every subsequent press of the
process button short-circuits on the `xgb_model is None` guard: the
outcome is `modelsUnavailable` for every possible pipeline body `run`,
so the pipeline (OCR included) is never entered. -/
theorem load_failure_short_circuits {A B C D E R : Type}
    (m : Except E A) (v : Except E B) (enc : Except E C) (sm : Except E D)
    (h : except_failed m = true ∨ except_failed v = true ∨
         except_failed enc = true ∨ except_failed sm = true) :
    load_resources m v enc sm = (none, none, none, none) ∧
    ∀ run : A → B → C → D → R,
      click_process (load_resources m v enc sm) run = Click.modelsUnavailable := by
  have hload : load_resources m v enc sm = (none, none, none, none) := by
    cases m with
    | error e => rfl
    | ok a =>
      cases v with
      | error e => rfl
      | ok b =>
        cases enc with
        | error e => rfl
        | ok c =>
          cases sm with
          | error e => rfl
          | ok d => simp [except_failed] at h
  refine ⟨hload, fun run => ?_⟩
  rw [hload]
  rfl

/-- Witness for C4: the classifier artifact fails to load while the
other three load fine. -/
theorem load_failure_short_circuits_witness :
    except_failed (Except.error "xgb_model_new.pkl not found" : Except String Nat) = true ∧
    load_resources (Except.error "xgb_model_new.pkl not found" : Except String Nat)
      (Except.ok 1 : Except String Nat) (Except.ok 2 : Except String Nat)
      (Except.ok 3 : Except String Nat) = (none, none, none, none) ∧
    click_process (load_resources (Except.error "xgb_model_new.pkl not found" : Except String Nat)
      (Except.ok 1 : Except String Nat) (Except.ok 2 : Except String Nat)
      (Except.ok 3 : Except String Nat)) (fun _ _ _ _ => (0 : Nat)) =
      Click.modelsUnavailable :=
  ⟨rfl,
   (@load_failure_short_circuits Nat Nat Nat Nat String Nat
      (Except.error "xgb_model_new.pkl not found") (Except.ok 1) (Except.ok 2) (Except.ok 3)
      (Or.inl rfl)).1,
   (@load_failure_short_circuits Nat Nat Nat Nat String Nat
      (Except.error "xgb_model_new.pkl not found") (Except.ok 1) (Except.ok 2) (Except.ok 3)
      (Or.inl rfl)).2 (fun _ _ _ _ => (0 : Nat))⟩

/-- C5: registering a fresh username succeeds and appends exactly one
credential row for it (so the row count for that username goes from 0
to 1), and a second registration of the same username returns the
negative result (`False`, the caught IntegrityError) and leaves the
users table unchanged — so at most one credential row per username
ever exists. -/
theorem register_unique_username (H : String → String) (db : UsersDb)
    (u p1 p2 : String) (h : has_user db u = false) :
    add_user H db u p1 = (true, db ++ [(u, H p1)]) ∧
    (db ++ [(u, H p1)]).countP (fun r => r.1 == u) = 1 ∧
    add_user H (db ++ [(u, H p1)]) u p2 = (false, db ++ [(u, H p1)]) := by
  have h0 : db.countP (fun r => r.1 == u) = 0 := by
    rw [List.countP_eq_zero]
    intro r hr
    have := (List.any_eq_false.mp h) r hr
    simpa using this
  have hcond : ¬ (has_user db u = true) := by simp [h]
  refine ⟨?_, ?_, ?_⟩
  · unfold add_user
    rw [if_neg hcond]
  · simp [List.countP_append, h0]
  · unfold add_user
    rw [if_pos]
    simp [has_user, List.any_append]

/-- Witness for C5 on an empty users table. -/
theorem register_unique_username_witness :
    has_user [] "alice" = false ∧
    add_user hash_stub [] "alice" "pw1" = (true, [("alice", hash_stub "pw1")]) ∧
    ([("alice", hash_stub "pw1")] : UsersDb).countP (fun r => r.1 == "alice") = 1 ∧
    add_user hash_stub [("alice", hash_stub "pw1")] "alice" "pw2" =
      (false, [("alice", hash_stub "pw1")]) :=
  ⟨rfl,
   (register_unique_username hash_stub [] "alice" "pw1" "pw2" rfl).1,
   (register_unique_username hash_stub [] "alice" "pw1" "pw2" rfl).2.1,
   (register_unique_username hash_stub [] "alice" "pw1" "pw2" rfl).2.2⟩

/-- C7: `login_user` returns the empty row set (rejected) whenever
every stored row for the username carries a hash different from the
hash of the supplied password — which covers both the
wrong-password case and, vacuously, the never-registered case — and,
stated separately, whenever the username appears in no row at all.
Both cases produce the same observable negative result `[]`. -/
theorem login_rejects_wrong_password_and_unknown_user (H : String → String)
    (db : UsersDb) (u p : String) :
    ((∀ r ∈ db, r.1 = u → r.2 ≠ H p) → login_user H db u p = []) ∧
    ((∀ r ∈ db, r.1 ≠ u) → login_user H db u p = []) := by
  constructor
  · intro h
    rw [login_user, List.filter_eq_nil_iff]
    intro r hr
    simp only [Bool.and_eq_true, beq_iff_eq, not_and]
    intro h1 h2
    exact h r hr h1 h2
  · intro h
    rw [login_user, List.filter_eq_nil_iff]
    intro r hr
    simp only [Bool.and_eq_true, beq_iff_eq, not_and]
    intro h1 _
    exact h r hr h1

/-- Witness for C7: a registered user with a wrong password, and an
unknown username, both rejected. -/
theorem login_rejects_witness :
    login_user hash_stub [("alice", hash_stub "pw")] "alice" "wrong" = [] ∧
    login_user hash_stub [("alice", hash_stub "pw")] "bob" "pw" = [] :=
  ⟨(login_rejects_wrong_password_and_unknown_user hash_stub
      [("alice", hash_stub "pw")] "alice" "wrong").1 (by decide),
   (login_rejects_wrong_password_and_unknown_user hash_stub
      [("alice", hash_stub "pw")] "bob" "pw").2 (by decide)⟩

/-- C8: registration followed by authentication round-trips.  If
`add_user` succeeds for `(u, p)`, then `login_user` on the updated
table with the same `u, p` returns a nonempty row set (authenticated):
the stored row carries `H p`, authentication hashes the supplied
password with the same deterministic `H`, and equal hashes select the
row.  This holds for an arbitrary hash function `H`. -/
theorem register_then_login_succeeds (H : String → String) (db : UsersDb)
    (u p : String) (db' : UsersDb) (h : add_user H db u p = (true, db')) :
    login_user H db' u p ≠ [] := by
  have hdb : db' = db ++ [(u, H p)] := by
    by_cases hu : has_user db u = true
    · unfold add_user at h
      rw [if_pos hu] at h
      simp at h
    · unfold add_user at h
      rw [if_neg hu] at h
      exact (Prod.mk.injEq _ _ _ _ ▸ h).2.symm
  have hmem : (u, H p) ∈ login_user H db' u p := by
    rw [hdb, login_user]
    refine List.mem_filter.mpr ⟨by simp, by simp⟩
  exact List.ne_nil_of_mem hmem

/-- Witness for C8 at a concrete registration. -/
theorem register_then_login_succeeds_witness :
    login_user hash_stub [("alice", hash_stub "pw1")] "alice" "pw1" ≠ [] :=
  register_then_login_succeeds hash_stub [] "alice" "pw1"
    [("alice", hash_stub "pw1")] (by decide)

/-- Helper: string concatenation concatenates the character lists. -/
theorem data_append (s t : String) : (s ++ t).data = s.data ++ t.data := by
  cases s
  cases t
  rfl

/-- Helper: the span between head and tail of an interpolated history
query is exactly the interpolated username. -/
theorem mid_of_history_query (u : String) :
    history_query_mid (history_query u) = u.data := by
  have hd : (history_query u).data =
      history_query_head.data ++ (u.data ++ history_query_tail.data) := by
    simp only [history_query, data_append, List.append_assoc]
  unfold history_query_mid
  rw [hd, List.drop_left, List.length_append, Nat.add_sub_cancel, List.take_left]

/-- Helper: a history query interpolating a quote-free username parses
back to exactly that username. -/
theorem parse_history_query_clean (u : String) (h : ∀ c ∈ u.data, c ≠ squot) :
    parse_history_query (history_query u) = some u := by
  have hcond : (history_query u).data =
      history_query_head.data ++ history_query_mid (history_query u) ++
        history_query_tail.data ∧
      ∀ c ∈ history_query_mid (history_query u), c ≠ squot := by
    rw [mid_of_history_query]
    exact ⟨by simp only [history_query, data_append, List.append_assoc], h⟩
  unfold parse_history_query
  rw [if_pos hcond, mid_of_history_query]

/-- Helper: every element of a list of naturals is bounded by the fold
of max over it. -/
theorem le_foldr_max (ns : List Nat) : ∀ n ∈ ns, n ≤ ns.foldr max 0 := by
  induction ns with
  | nil => intro n hn; cases hn
  | cons a t ih =>
    intro n hn
    rcases List.mem_cons.mp hn with h1 | h2
    · subst h1; exact le_max_left _ _
    · exact le_trans (ih n h2) (le_max_right _ _)

/-- Helper: appending a history row keeps the table ids strictly
increasing, because the AUTOINCREMENT id exceeds every existing id. -/
theorem save_history_increasing (db : HistDb) (now user file : String)
    (c s : Option String) (h : db.Pairwise (fun a b => a.id < b.id)) :
    (save_history db now user file c s).Pairwise (fun a b => a.id < b.id) := by
  unfold save_history
  rw [List.pairwise_append]
  refine ⟨h, List.pairwise_singleton _ _, ?_⟩
  intro a ha b hb
  rw [List.mem_singleton.mp hb]
  show a.id < next_id db
  have hle : a.id ≤ (db.map (fun r => r.id)).foldr max 0 :=
    le_foldr_max _ a.id (List.mem_map_of_mem _ ha)
  unfold next_id
  omega

/-- C6 as amended: for every username containing no single-quote
character, `history(username)` returns exactly the records previously
appended for that username and no records of any other user, ordered
newest-first: the result is the reverse of the insertion-ordered rows
of that user (so N records after N recorded runs, zero for a user with
no runs), the reverse order is id-descending because appends assign
strictly increasing ids, and appending preserves that invariant.  For
a username containing a quote the interpolated query text is not one
well-formed statement of this family and the call fails instead of
returning the records (see the counterexample). -/
theorem history_returns_user_records (db : HistDb) (u : String)
    (h : ∀ c ∈ u.data, c ≠ squot) :
    get_user_history db u =
      some (((db.filter (fun r => r.username == u)).reverse).map hist_row_view) ∧
    (∀ l, get_user_history db u = some l →
      l.length = (db.filter (fun r => r.username == u)).length) ∧
    ((∀ r ∈ db, r.username ≠ u) → get_user_history db u = some []) ∧
    (db.Pairwise (fun a b => a.id < b.id) →
      ((db.filter (fun r => r.username == u)).reverse).Pairwise
        (fun a b => b.id < a.id)) ∧
    (∀ now file c s, db.Pairwise (fun a b => a.id < b.id) →
      (save_history db now u file c s).Pairwise (fun a b => a.id < b.id)) := by
  have h1 : get_user_history db u =
      some (((db.filter (fun r => r.username == u)).reverse).map hist_row_view) := by
    unfold get_user_history run_history_query
    rw [parse_history_query_clean u h]
  refine ⟨h1, ?_, ?_, ?_, ?_⟩
  · intro l hl
    rw [h1] at hl
    have := Option.some.inj hl
    rw [← this]
    simp
  · intro hnone
    have hf : db.filter (fun r => r.username == u) = [] := by
      rw [List.filter_eq_nil_iff]
      intro r hr
      simpa using hnone r hr
    rw [h1, hf]
    rfl
  · intro hpw
    rw [List.pairwise_reverse]
    exact hpw.filter _
  · intro now file c s hpw
    exact save_history_increasing db now u file c s hpw

/-- Witness for C6 (amended) on the two-user table `db0`: alice gets
exactly the one record of alice and no record of bob. -/
theorem history_returns_user_records_witness :
    ("alice".data.all (fun c => c != squot)) = true ∧
    get_user_history db0 "alice" =
      some (((db0.filter (fun r => r.username == "alice")).reverse).map hist_row_view) ∧
    ((db0.filter (fun r => r.username == "alice")).reverse).map hist_row_view =
      [("2026-10-11 09:00:00", "inv1.png", some "invoice", some "sum a")] :=
  ⟨by decide,
   (history_returns_user_records db0 "alice" (by decide)).1,
   by decide⟩

set_option maxRecDepth 8192 in
/-- C6 counterexample: the claim quantifies over every user, but for
the username O Brien (spelled with a quote), one record is appended for
that user and `get_user_history` then fails on the malformed
interpolated query (a database error, `none`) instead of returning
that record — the embedded sqlite model rejects the query because the
quote inside the interpolated literal ends the string early. -/
theorem history_quote_username_cex :
    (save_history [] "2026-10-12 00:00:00" obrien "doc.png" (some "invoice")
      (some "sum")).countP (fun r => r.username == obrien) = 1 ∧
    get_user_history
      (save_history [] "2026-10-12 00:00:00" obrien "doc.png" (some "invoice")
        (some "sum")) obrien = none := by
  constructor
  · decide
  · decide

/-- C9 counterexample: the claim says every Store operation submits
identical query text for every pair of user inputs, but the history
query interpolates the username into its text (app.py line 128), so two
different usernames produce two different query strings. -/
theorem store_query_text_cex :
    history_query "alice" ≠ history_query "bob" := by
  decide

/-- C9 as amended: `register` (`add_user`), `authenticate`
(`login_user`) and `record` (`save_history`) pass user-supplied data
exclusively as bound parameters — the query text they submit is one
fixed string, identical for every pair of user inputs — while the
`history` query (`get_user_history`) is formed by string concatenation
of the username into the query text, so its text varies with the
input. -/
theorem store_query_text_parameterized (u1 p1 u2 p2 f1 f2 : String)
    (c1 c2 s1 s2 : Option String) :
    add_user_query u1 p1 = add_user_query u2 p2 ∧
    login_user_query u1 p1 = login_user_query u2 p2 ∧
    save_history_query u1 f1 c1 s1 = save_history_query u2 f2 c2 s2 ∧
    history_query u1 = history_query_head ++ u1 ++ history_query_tail :=
  ⟨rfl, rfl, rfl, rfl⟩

/-- C10: the implicit failure encoding of the pipeline interface.  The
first component of the `process_document` triple is `None` exactly when
the stripped OCR text is empty; in that case the second component is
also `None` and the third is the reason string "No text found" instead
of the extracted text.  The caller decides success solely by Python
truthiness of the first component, so a run whose decoded category
label is the (falsy) empty string is treated as a failure and no
history record is saved. -/
theorem process_document_failure_encoding {Vec Pred : Type}
    (M : Models Vec Pred) (text : String) (db : HistDb) (now user file : String) :
    ((process_document_text M text).1.1 = none ↔ py_strip text = "") ∧
    (py_strip text = "" →
      (process_document_text M text).1 = (none, none, "No text found")) ∧
    (M.inverse_transform (M.predict (M.transform text)) = "" →
      handle_result db now user file (process_document_text M text).1 = (db, false)) := by
  by_cases hs : py_strip text = ""
  · refine ⟨?_, ?_, ?_⟩ <;>
      simp [process_document_text, hs, handle_result, py_truthy]
  · refine ⟨?_, fun c => absurd c hs, ?_⟩
    · simp [process_document_text, hs]
    · intro hdec
      simp [process_document_text, hs, handle_result, py_truthy, hdec]

/-- Witness for C10: the empty-text case yields the failure triple, and
a run whose decoded label is the empty string saves no record. -/
theorem process_document_failure_encoding_witness :
    ((process_document_text M0 "").1 = (none, none, "No text found")) ∧
    handle_result [] "2026-10-12 00:00:00" "alice" "doc.png"
      (process_document_text M0 "hello world, a nonempty text").1 = ([], false) :=
  ⟨(process_document_failure_encoding M0 "" [] "t" "u" "f").2.1 (by decide),
   (process_document_failure_encoding M0 "hello world, a nonempty text" []
      "2026-10-12 00:00:00" "alice" "doc.png").2.2 rfl⟩
